import Mathlib

/-!
Shallow embedding of the windowed linear-regression CAGR estimator of the
`portfolio-analysis` repository: the window partitioner `getWindows`
(src/getWindows.mjs) and the growth estimator `getLinearRegressionCAGR`
(src/getLinearRegressionCAGR.mjs).

Modelling conventions:
* A JavaScript `Date` is represented by its `getTime()` value, a number of
  milliseconds, modelled as `ℤ`.
* JavaScript numbers are idealised as extended rationals: the inductive
  `JSNum` has constructors for `NaN`, `Infinity`, `-Infinity` and finite
  values `ℚ`; the arithmetic on it follows the IEEE‑754 rules for these
  values exactly (negative zero is not distinguished from zero).
  Quantities that can be shown finite on every reachable path are carried
  directly as `ℚ` or `ℤ`, as the source's arithmetic on them is exact there.
* A thrown JavaScript error is modelled by `Except JSError`; the payload of
  each `JSError` constructor records the data interpolated into the thrown
  message (dynamic `typeof` / `instanceof` checks of the source are
  subsumed by the types of the embedding and cannot fail here).
-/

deriving instance DecidableEq for Except

/-- One observation: a sampled portfolio value at a point in time.  Mirrors
the `{ date: Date, value: Number }` records consumed by `getWindows`. -/
structure Obs where
  date : ℤ
  value : ℚ
deriving DecidableEq, Repr

/-- Errors thrown by the embedded functions.  `typeError` stands for the
JavaScript `TypeError` raised when a property is read from `undefined`;
the other constructors carry the data interpolated into the corresponding
`Error` message of the source. -/
inductive JSError where
  | typeError : JSError
  | windowSizeNotPositive : ℚ → JSError
  | overlapNotSmaller : ℚ → ℚ → JSError
  | lengthMismatch : ℕ → ℕ → JSError
deriving DecidableEq, Repr

/-- JavaScript number, idealised: `NaN`, the two infinities, or an exact
rational. -/
inductive JSNum where
  | nan : JSNum
  | inf : JSNum
  | ninf : JSNum
  | num : ℚ → JSNum
deriving DecidableEq, Repr

namespace JSNum

/-- Negation of a JavaScript number. -/
def neg : JSNum → JSNum
  | nan => nan
  | inf => ninf
  | ninf => inf
  | num a => num (-a)

/-- Addition of JavaScript numbers (IEEE rules for `NaN` and infinities). -/
def add : JSNum → JSNum → JSNum
  | nan, _ => nan
  | _, nan => nan
  | inf, ninf => nan
  | ninf, inf => nan
  | inf, _ => inf
  | _, inf => inf
  | ninf, _ => ninf
  | _, ninf => ninf
  | num a, num b => num (a + b)

/-- Subtraction of JavaScript numbers. -/
def sub (a b : JSNum) : JSNum := add a (neg b)

/-- Multiplication of JavaScript numbers (IEEE rules: `∞ · 0 = NaN`). -/
def mul : JSNum → JSNum → JSNum
  | nan, _ => nan
  | _, nan => nan
  | inf, inf => inf
  | inf, ninf => ninf
  | ninf, inf => ninf
  | ninf, ninf => inf
  | inf, num b => if b = 0 then nan else if 0 < b then inf else ninf
  | num a, inf => if a = 0 then nan else if 0 < a then inf else ninf
  | ninf, num b => if b = 0 then nan else if 0 < b then ninf else inf
  | num a, ninf => if a = 0 then nan else if 0 < a then ninf else inf
  | num a, num b => num (a * b)

/-- Division of JavaScript numbers (IEEE rules: `0 / 0 = NaN`,
`c / 0 = ±∞` for `c ≠ 0`, `c / ∞ = 0`, `∞ / ∞ = NaN`). -/
def div : JSNum → JSNum → JSNum
  | nan, _ => nan
  | _, nan => nan
  | inf, inf => nan
  | inf, ninf => nan
  | ninf, inf => nan
  | ninf, ninf => nan
  | inf, num b => if 0 ≤ b then inf else ninf
  | ninf, num b => if 0 ≤ b then ninf else inf
  | num _, inf => num 0
  | num _, ninf => num 0
  | num a, num b =>
      if b = 0 then (if a = 0 then nan else if 0 < a then inf else ninf)
      else num (a / b)

/-- The `Number.isNaN` predicate. -/
def isNaN : JSNum → Bool
  | nan => true
  | _ => false

end JSNum

/-- Number of milliseconds in one 365-day year.
Modelled from the spec: the helper `getTimes` (src/helpers/getTimes.mjs) is
absent from the sources; its unit test (src/helpers/getTimes.test.mjs) pins
`yearInMs` to `31536000000` and the spec describes it as "1 year (365 days
of milliseconds)". -/
def yearInMs : ℚ := 31536000000

/-- Window partitioner, from src/getWindows.mjs: validates the arguments,
then splits `data` into `ceil(T / (windowSizeInMs - overlapInMs))` windows,
window `index` holding the observations whose offset from the first
observation's timestamp lies in
`[index * (windowSizeInMs - overlapInMs), index * (...) + windowSizeInMs)`.
Reading `data.at(0).date` or `data.at(-1).date` of an empty `data` throws a
`TypeError` in JavaScript, modelled by the final `match` arm.  (The source's
`Array.isArray` / element-shape check precedes the numeric checks; on the
typed inputs of this embedding it always passes and is omitted.) -/
def getWindows (data : List Obs) (windowSizeInMs : ℚ) (overlapInMs : ℚ) :
    Except JSError (List (List Obs)) :=
  if windowSizeInMs ≤ 0 then .error (.windowSizeNotPositive windowSizeInMs)
  else if overlapInMs ≥ windowSizeInMs then
    .error (.overlapNotSmaller overlapInMs windowSizeInMs)
  else
    match data.head?, data.getLast? with
    | some first, some last =>
        let startTime : ℤ := first.date
        let timeSeriesDuration : ℚ := ((last.date - startTime : ℤ) : ℚ)
        let segmentBaseLength : ℚ := windowSizeInMs - overlapInMs
        let amountOfWindows : ℤ := ⌈timeSeriesDuration / segmentBaseLength⌉
        .ok ((List.range amountOfWindows.toNat).map (fun (index : ℕ) =>
          data.filter (fun item =>
            decide ((index : ℚ) * segmentBaseLength ≤
              ((item.date - startTime : ℤ) : ℚ)) &&
            decide (((item.date - startTime : ℤ) : ℚ) <
              (index : ℚ) * segmentBaseLength + windowSizeInMs))))
    | _, _ => .error .typeError

/-- The source's third parameter defaults to `0` (`overlapInMs = 0`). -/
def getWindowsDefault (data : List Obs) (windowSizeInMs : ℚ) :
    Except JSError (List (List Obs)) :=
  getWindows data windowSizeInMs 0

/-- Interval end of window `index`: `start + windowSizeInMs` with
`start = index * (windowSizeInMs - overlapInMs)`, as computed in
src/getWindows.mjs. -/
def windowEnd (windowSizeInMs overlapInMs : ℚ) (index : ℕ) : ℚ :=
  (index : ℚ) * (windowSizeInMs - overlapInMs) + windowSizeInMs

/-- Ordinary least-squares simple linear regression, returning
`(slope, intercept)`.
Modelled from the spec: the external collaborator
`ml-regression-simple-linear` (§6) "given paired x/y values, returns slope
and intercept minimizing squared residuals; returns NaN slope/intercept when
given fewer than 2 points".  The closed forms are the textbook minimisers
`slope = (n·Σxy − Σx·Σy) / (n·Σx² − (Σx)²)` and
`intercept = ȳ − slope·x̄`; the denominator `n·Σx² − (Σx)²` is zero exactly
when fewer than 2 points are given or all x coincide, and there (and only
there) the library's floating-point evaluation yields `0 / 0 = NaN` for
both coefficients. -/
def ols (xs ys : List ℚ) : JSNum × JSNum :=
  let n : ℚ := xs.length
  let sx : ℚ := xs.sum
  let sy : ℚ := ys.sum
  let sxx : ℚ := (xs.map (fun x => x * x)).sum
  let sxy : ℚ := ((xs.zip ys).map (fun p => p.1 * p.2)).sum
  if n * sxx - sx * sx = 0 then (.nan, .nan)
  else
    let slope : ℚ := (n * sxy - sx * sy) / (n * sxx - sx * sx)
    (.num slope, .num (sy / n - slope * (sx / n)))

/-- Per-window growth rate of src/getLinearRegressionCAGR.mjs: regress the
window's values against elapsed time since the window's first observation
(in years), then return `(intercept + slope) / intercept`.  For an empty
window the two `map`s never read `window.at(0)`, so both coordinate lists
are empty. -/
def windowGrowthRate (window : List Obs) : JSNum :=
  let xValues : List ℚ :=
    match window.head? with
    | none => []
    | some first =>
        window.map (fun o => ((o.date - first.date : ℤ) : ℚ) / yearInMs)
  let yValues : List ℚ := window.map Obs.value
  let sl := ols xValues yValues
  JSNum.div (JSNum.add sl.2 sl.1) sl.2

/-- Growth rates of all windows (`windows.map(...)` of the source). -/
def growthRatesOf (windows : List (List Obs)) : List JSNum :=
  windows.map windowGrowthRate

/-- The retained rates: drop the `NaN` rates, subtract 1 from the rest
(the source's `.filter(rate => !Number.isNaN(rate)).map(rate => rate - 1)`). -/
def retainedRates (windows : List (List Obs)) : List JSNum :=
  ((growthRatesOf windows).filter (fun rate => !(JSNum.isNaN rate))).map
    (fun rate => JSNum.sub rate (.num 1))

/-- The source's `.map((rate, index) => ({rate, partOfYear: ...}))`: pair
each retained rate with
`(windows[index].at(-1).date - windows[index].at(0).date) / yearInMs`,
where `index` is the position in the **filtered** list.  Reading
`windows[index]` past the end, or `.at(-1)` / `.at(0)` of an empty window,
yields `undefined`, whose `.date` access throws a `TypeError`. -/
def attachPartOfYear (windows : List (List Obs)) :
    List JSNum → ℕ → Except JSError (List (JSNum × ℚ))
  | [], _ => .ok []
  | rate :: rest, index =>
      match windows.get? index with
      | none => .error .typeError
      | some w =>
          match w.getLast?, w.head? with
          | some lastObs, some firstObs =>
              match attachPartOfYear windows rest (index + 1) with
              | .error e => .error e
              | .ok tail =>
                  .ok ((rate,
                    ((lastObs.date - firstObs.date : ℤ) : ℚ) / yearInMs)
                    :: tail)
          | _, _ => .error .typeError

/-- Windowed linear-regression CAGR estimator, from
src/getLinearRegressionCAGR.mjs (the spec's `estimateCAGR`): check the
lengths, merge values and dates into observations, partition into 1-year
windows with half-year overlap, compute per-window regression growth rates,
drop the `NaN` ones, weight the rest by `partOfYear` and return the
weighted average.  `ensureArray(·, false)` of the source only checks
`Array.isArray`, which the embedding's types subsume. -/
def getLinearRegressionCAGR (data : List ℚ) (dates : List ℤ) :
    Except JSError JSNum :=
  if data.length ≠ dates.length then
    .error (.lengthMismatch data.length dates.length)
  else
    let mergedData : List Obs :=
      (data.zip dates).map (fun p => { date := p.2, value := p.1 })
    match getWindows mergedData yearInMs (yearInMs / 2) with
    | .error e => .error e
    | .ok windows =>
        match attachPartOfYear windows (retainedRates windows) 0 with
        | .error e => .error e
        | .ok validGrowthRates =>
            let amountOfYears : ℚ :=
              validGrowthRates.foldl (fun sum current => sum + current.2) 0
            .ok (JSNum.div
              (validGrowthRates.foldl
                (fun sum current =>
                  JSNum.add sum (JSNum.mul current.1 (.num current.2)))
                (.num 0))
              (.num amountOfYears))

/-- Aggregation as the specification words it (§4.2 steps 5–7): every
window whose growth rate is not `NaN` is retained and contributes its own
`fractionOfYear = (last observation timestamp − first observation timestamp
in that window) / 1 year`; the result is
`Σ(rate_i · fractionOfYear_i) / Σ(fractionOfYear_i)` over the retained
windows.  Written to compare the source's aggregation against the spec's. -/
def specTimeWeightedCAGR (data : List ℚ) (dates : List ℤ) :
    Except JSError JSNum :=
  if data.length ≠ dates.length then
    .error (.lengthMismatch data.length dates.length)
  else
    let mergedData : List Obs :=
      (data.zip dates).map (fun p => { date := p.2, value := p.1 })
    match getWindows mergedData yearInMs (yearInMs / 2) with
    | .error e => .error e
    | .ok windows =>
        let samples : List (JSNum × ℚ) :=
          windows.filterMap (fun w =>
            let rate := windowGrowthRate w
            if JSNum.isNaN rate then none
            else
              match w.getLast?, w.head? with
              | some lastObs, some firstObs =>
                  some (JSNum.sub rate (.num 1),
                    ((lastObs.date - firstObs.date : ℤ) : ℚ) / yearInMs)
              | _, _ => none)
        .ok (JSNum.div
          (samples.foldl
            (fun sum current =>
              JSNum.add sum (JSNum.mul current.1 (.num current.2)))
            (.num 0))
          (.num (samples.foldl (fun sum current => sum + current.2) 0)))

/-! ### Helper lemmas -/

lemma ols_nil : ols [] [] = (JSNum.nan, JSNum.nan) := by
  simp [ols]

lemma ols_single (x y : ℚ) : ols [x] [y] = (JSNum.nan, JSNum.nan) := by
  simp only [ols]
  rw [if_pos (by simp)]

lemma windowGrowthRate_short (w : List Obs) (h : w.length < 2) :
    windowGrowthRate w = JSNum.nan := by
  match w, h with
  | [], _ =>
      show JSNum.div (JSNum.add (ols [] []).2 (ols [] []).1) (ols [] []).2 =
        JSNum.nan
      rw [ols_nil]
      rfl
  | [o], _ =>
      simp only [windowGrowthRate, List.head?, List.map]
      rw [ols_single]
      rfl

lemma getWindows_ok (data : List Obs) (W ov : ℚ) (f l : Obs)
    (hf : data.head? = some f) (hl : data.getLast? = some l)
    (hW : 0 < W) (hov : ov < W) :
    getWindows data W ov =
      Except.ok ((List.range (⌈((l.date - f.date : ℤ) : ℚ) / (W - ov)⌉).toNat).map
        (fun (index : ℕ) => data.filter (fun item =>
          decide ((index : ℚ) * (W - ov) ≤ ((item.date - f.date : ℤ) : ℚ)) &&
          decide (((item.date - f.date : ℤ) : ℚ) <
            (index : ℚ) * (W - ov) + W)))) := by
  simp only [getWindows]
  rw [if_neg (not_le.mpr hW), if_neg (not_le.mpr hov), hf, hl]

lemma ceil_toNat_eq {q : ℚ} {z : ℤ} {n : ℕ} (h1 : (z : ℚ) - 1 < q)
    (h2 : q ≤ (z : ℚ)) (h3 : z.toNat = n) : (⌈q⌉).toNat = n := by
  rw [Int.ceil_eq_iff.mpr ⟨h1, h2⟩, h3]

lemma getWindows_singleton (o : Obs) :
    getWindows [o] yearInMs (yearInMs / 2) = Except.ok [] := by
  rw [getWindows_ok [o] yearInMs (yearInMs / 2) o o rfl rfl
    (by norm_num [yearInMs]) (by norm_num [yearInMs])]
  simp

lemma rate_w0 : windowGrowthRate [⟨0, 1⟩, ⟨3153600000, 1⟩,
    ⟨18921600000, 1⟩] = JSNum.num 1 := by
  simp only [windowGrowthRate, List.head?, List.map]
  norm_num [ols, yearInMs, JSNum.add, JSNum.div]

lemma rate_w1 : windowGrowthRate [⟨18921600000, 1⟩] = JSNum.nan :=
  windowGrowthRate_short [⟨18921600000, 1⟩] (by norm_num)

lemma rate_w2 : windowGrowthRate [⟨50457600000, 1⟩, ⟨53611200000, 2⟩] =
    JSNum.num 11 := by
  simp only [windowGrowthRate, List.head?, List.map]
  norm_num [ols, yearInMs, JSNum.add, JSNum.div]

lemma bug_windows :
    getWindows [⟨0, 1⟩, ⟨3153600000, 1⟩, ⟨18921600000, 1⟩,
      ⟨50457600000, 1⟩, ⟨53611200000, 2⟩] yearInMs (yearInMs / 2) =
    Except.ok [[⟨0, 1⟩, ⟨3153600000, 1⟩, ⟨18921600000, 1⟩],
      [⟨18921600000, 1⟩],
      [⟨50457600000, 1⟩, ⟨53611200000, 2⟩],
      [⟨50457600000, 1⟩, ⟨53611200000, 2⟩]] := by
  rw [getWindows_ok [⟨0, 1⟩, ⟨3153600000, 1⟩, ⟨18921600000, 1⟩,
    ⟨50457600000, 1⟩, ⟨53611200000, 2⟩] yearInMs (yearInMs / 2)
    ⟨0, 1⟩ ⟨53611200000, 2⟩ rfl rfl (by norm_num [yearInMs])
    (by norm_num [yearInMs])]
  rw [ceil_toNat_eq (z := 4) (n := 4) (by norm_num [yearInMs])
    (by norm_num [yearInMs]) rfl]
  rw [show List.range 4 = [0, 1, 2, 3] from rfl]
  norm_num [List.filter_cons, List.filter_nil, yearInMs]

/-! ### Claims -/

/-- C1: the source aggregates `Σ(rate_i · partOfYear_i) / Σ(partOfYear_i)`,
but pairs each retained rate with `windows[index]` where `index` is the
position in the **filtered** rate list, not the window's own index.  On five
observations at 0, 0.1, 0.6, 1.6 and 1.7 years (values 1, 1, 1, 1, 2) the
singleton second window is dropped as `NaN`, after which the two retained
late rates receive the fractions of windows 1 and 2 instead of windows 2
and 3: the code returns `10/7` while the spec's time-weighted average of
the retained windows is `5/2`. -/
theorem getLinearRegressionCAGR_weight_misalignment :
    getLinearRegressionCAGR [1, 1, 1, 1, 2]
      [0, 3153600000, 18921600000, 50457600000, 53611200000] =
      Except.ok (JSNum.num (10 / 7)) ∧
    specTimeWeightedCAGR [1, 1, 1, 1, 2]
      [0, 3153600000, 18921600000, 50457600000, 53611200000] =
      Except.ok (JSNum.num (5 / 2)) ∧
    (10 : ℚ) / 7 ≠ 5 / 2 := by
  refine ⟨?_, ?_, by norm_num⟩
  · simp only [getLinearRegressionCAGR, List.length_cons, List.length_nil,
      List.zip_cons_cons, List.zip_nil_right, List.map_cons, List.map_nil]
    rw [if_neg (by norm_num)]
    rw [bug_windows]
    simp only [retainedRates, growthRatesOf, List.map_cons, List.map_nil,
      rate_w0, rate_w2, rate_w1, List.filter_cons, List.filter_nil]
    norm_num [JSNum.isNaN, JSNum.sub, JSNum.neg, JSNum.add, attachPartOfYear,
      List.get?, List.foldl, JSNum.mul, JSNum.div, yearInMs]
  · simp only [specTimeWeightedCAGR, List.length_cons, List.length_nil,
      List.zip_cons_cons, List.zip_nil_right, List.map_cons, List.map_nil]
    rw [if_neg (by norm_num)]
    rw [bug_windows]
    simp only [List.filterMap_cons, rate_w0, rate_w2, rate_w1]
    norm_num [JSNum.isNaN, JSNum.sub, JSNum.neg, JSNum.add, List.getLast?,
      List.head?, List.foldl, JSNum.mul, JSNum.div, yearInMs,
      List.filterMap_nil]

/-- C3 (counterexample): on a single observation the span `T` is 0,
`Math.ceil(0 / stride)` is 0, and `getWindows` returns 0 windows, not the
claimed minimum of 1. -/
theorem getWindows_zero_windows_on_zero_span :
    Except.map List.length
      (getWindows [({ date := 0, value := 1 } : Obs)] 1000 0) =
      Except.ok 0 := by
  rw [getWindows_ok [({ date := 0, value := 1 } : Obs)] 1000 0
    ⟨0, 1⟩ ⟨0, 1⟩ rfl rfl (by norm_num) (by norm_num)]
  simp [Except.map]

/-- C5 (counterexample): with observations at offsets 0 and 3000 ms,
window size 3000 and overlap 0, a single window `[0, 3000)` is produced:
its interval end equals (does not strictly exceed) the last observation's
offset, and the last observation falls in no window. -/
theorem getWindows_last_end_not_strict :
    getWindows [({ date := 0, value := 1 } : Obs), { date := 3000, value := 1 }]
        3000 0 =
      Except.ok [[{ date := 0, value := 1 }]] ∧
    ¬ ((3000 : ℚ) < windowEnd 3000 0 0) ∧
    ({ date := 3000, value := 1 } : Obs) ∉
      ([{ date := 0, value := 1 }] : List Obs) := by
  refine ⟨?_, by norm_num [windowEnd], by simp⟩
  rw [getWindows_ok
    [({ date := 0, value := 1 } : Obs), { date := 3000, value := 1 }] 3000 0
    ⟨0, 1⟩ ⟨3000, 1⟩ rfl rfl (by norm_num) (by norm_num)]
  rw [ceil_toNat_eq (z := 1) (n := 1) (by norm_num) (by norm_num) rfl]
  norm_num [List.range_succ, List.filter_cons, List.filter_nil]

/-- C6: on one value and one timestamp the estimator retains no window, the
aggregation is `0 / 0`, and `NaN` is returned as a value (`Except.ok`), not
thrown. -/
theorem getLinearRegressionCAGR_single_nan (v : ℚ) (t : ℤ) :
    getLinearRegressionCAGR [v] [t] = Except.ok JSNum.nan := by
  simp only [getLinearRegressionCAGR, List.length_cons, List.length_nil,
    List.zip_cons_cons, List.zip_nil_right, List.map_cons, List.map_nil]
  rw [if_neg (by simp)]
  rw [getWindows_singleton]
  rfl

/-- C6 (witness): the theorem applied at the concrete input `[5]`, `[0]`. -/
theorem getLinearRegressionCAGR_single_nan_witness :
    getLinearRegressionCAGR [5] [0] = Except.ok JSNum.nan :=
  getLinearRegressionCAGR_single_nan 5 0

/-- C7: when the two input lengths differ, the estimator fails with the
length-mismatch error carrying both lengths (the source interpolates exactly
these two numbers into the thrown message), before any window or regression
computation; in particular on an empty value list and one date. -/
theorem getLinearRegressionCAGR_length_mismatch :
    (∀ (data : List ℚ) (dates : List ℤ), data.length ≠ dates.length →
      getLinearRegressionCAGR data dates =
        Except.error (JSError.lengthMismatch data.length dates.length)) ∧
    ∀ t : ℤ, getLinearRegressionCAGR [] [t] =
      Except.error (JSError.lengthMismatch 0 1) := by
  constructor
  · intro data dates h
    simp only [getLinearRegressionCAGR]
    rw [if_pos h]
  · intro t
    simp only [getLinearRegressionCAGR, List.length_nil, List.length_cons]
    rw [if_pos (by norm_num)]

/-- C7 (witness): the theorem applied to lengths 2 and 1. -/
theorem getLinearRegressionCAGR_length_mismatch_witness :
    getLinearRegressionCAGR [1, 2] [5] =
      Except.error (JSError.lengthMismatch 2 1) :=
  getLinearRegressionCAGR_length_mismatch.1 [1, 2] [5] (by norm_num)

/-- C9: an empty observation list passes every validation check of
`getWindows` (the element predicate holds vacuously), after which reading
the first element's timestamp fails with a `TypeError`; consequently
`getLinearRegressionCAGR [] []` (equal lengths) also fails with this
non-validation error instead of returning `NaN`. -/
theorem getWindows_empty_input_fails :
    (∀ W ov : ℚ, 0 < W → ov < W →
      getWindows [] W ov = Except.error JSError.typeError) ∧
    getLinearRegressionCAGR [] [] = Except.error JSError.typeError := by
  constructor
  · intro W ov hW hov
    simp only [getWindows]
    rw [if_neg (not_le.mpr hW), if_neg (not_le.mpr hov)]
    rfl
  · simp only [getLinearRegressionCAGR, List.length_nil, List.zip_nil_right,
      List.map_nil]
    rw [if_neg (by norm_num)]
    simp only [getWindows]
    rw [if_neg (by norm_num [yearInMs]), if_neg (by norm_num [yearInMs])]
    rfl

/-- C9 (witness): the theorem's first part applied at window size 1000 and
overlap 0. -/
theorem getWindows_empty_input_fails_witness :
    getWindows [] 1000 0 = Except.error JSError.typeError :=
  getWindows_empty_input_fails.1 1000 0 (by norm_num) (by norm_num)

/-- C8 (counterexample): the empty list satisfies every stated precondition
of `getWindows` (each element is vacuously valid, 500 is a positive window
size, 0 is a smaller overlap), yet the call does not return normally — it
fails with a `TypeError`, which is not one of the validation errors. -/
theorem getWindows_valid_empty_not_normal :
    getWindows ([] : List Obs) 500 0 = Except.error JSError.typeError := by
  simp only [getWindows]
  rw [if_neg (by norm_num), if_neg (by norm_num)]
  rfl

/-- C8 (amended): `getWindows` fails with the validation error naming the
offending argument when the window size is not positive or the overlap is
not smaller than the window size; the overlap defaults to 0; and under the
preconditions the call returns normally for every **nonempty** observation
list, while the empty (vacuously valid) list fails with a non-validation
`TypeError`.  The function is pure, so there are no side effects. -/
theorem getWindows_validation :
    (∀ (data : List Obs) (W ov : ℚ), W ≤ 0 →
      getWindows data W ov =
        Except.error (JSError.windowSizeNotPositive W)) ∧
    (∀ (data : List Obs) (W ov : ℚ), 0 < W → W ≤ ov →
      getWindows data W ov = Except.error (JSError.overlapNotSmaller ov W)) ∧
    (∀ (data : List Obs) (W : ℚ),
      getWindowsDefault data W = getWindows data W 0) ∧
    (∀ (data : List Obs) (W ov : ℚ), data ≠ [] → 0 < W → ov < W →
      ∃ ws, getWindows data W ov = Except.ok ws) ∧
    (∀ W ov : ℚ, 0 < W → ov < W →
      getWindows ([] : List Obs) W ov = Except.error JSError.typeError) := by
  refine ⟨?_, ?_, fun _ _ => rfl, ?_, ?_⟩
  · intro data W ov h
    simp only [getWindows]
    rw [if_pos h]
  · intro data W ov hW h
    simp only [getWindows]
    rw [if_neg (not_le.mpr hW), if_pos h]
  · intro data W ov hne hW hov
    obtain ⟨f, hf⟩ : ∃ f, data.head? = some f := by
      cases data with
      | nil => exact absurd rfl hne
      | cons a t => exact ⟨a, rfl⟩
    obtain ⟨l, hl⟩ : ∃ l, data.getLast? = some l :=
      ⟨data.getLast hne, List.getLast?_eq_getLast data hne⟩
    rw [getWindows_ok data W ov f l hf hl hW hov]
    exact ⟨_, rfl⟩
  · intro W ov hW hov
    simp only [getWindows]
    rw [if_neg (not_le.mpr hW), if_neg (not_le.mpr hov)]
    rfl

/-- C8 (witness): the amended theorem's first part applied at window size
0, and its fourth part applied to a singleton list. -/
theorem getWindows_validation_witness :
    getWindows ([] : List Obs) 0 0 =
      Except.error (JSError.windowSizeNotPositive 0) ∧
    ∃ ws, getWindows [({ date := 0, value := 1 } : Obs)] 1000 0 =
      Except.ok ws :=
  ⟨getWindows_validation.1 [] 0 0 le_rfl,
    getWindows_validation.2.2.2.1 [{ date := 0, value := 1 }] 1000 0
      (by simp) (by norm_num) (by norm_num)⟩

/-- C2: for validated arguments and a chronologically ordered nonempty
input, `getWindows` produces exactly `ceil(T / (windowSizeInMs −
overlapInMs))` windows (`T` = last minus first timestamp), window `i`
holding exactly the observations whose offset from the first timestamp lies
in `[i·stride, i·stride + windowSizeInMs)`, in index order with empty
windows kept; and the six observations at 0,1,2,3,4,8 seconds with window
size 3000 ms and overlap 1500 ms yield the six specified windows (the
fourth empty, the last observation shared by the last two). -/
theorem getWindows_partition_spec :
    (∀ (data : List Obs) (W ov : ℚ) (f l : Obs),
      data.head? = some f → data.getLast? = some l → 0 < W → ov < W →
      f.date ≤ l.date →
      ∃ ws, getWindows data W ov = Except.ok ws ∧
        (ws.length : ℤ) = ⌈((l.date - f.date : ℤ) : ℚ) / (W - ov)⌉ ∧
        ∀ i, ∀ hi : i < ws.length, ∀ o : Obs,
          o ∈ ws[i] ↔ o ∈ data ∧
            (i : ℚ) * (W - ov) ≤ ((o.date - f.date : ℤ) : ℚ) ∧
            ((o.date - f.date : ℤ) : ℚ) < (i : ℚ) * (W - ov) + W) ∧
    getWindows [⟨0, 1⟩, ⟨1000, 2⟩, ⟨2000, 3⟩, ⟨3000, 4⟩, ⟨4000, 5⟩,
        ⟨8000, 6⟩] 3000 1500 =
      Except.ok [[⟨0, 1⟩, ⟨1000, 2⟩, ⟨2000, 3⟩],
        [⟨2000, 3⟩, ⟨3000, 4⟩, ⟨4000, 5⟩],
        [⟨3000, 4⟩, ⟨4000, 5⟩], [], [⟨8000, 6⟩], [⟨8000, 6⟩]] := by
  constructor
  · intro data W ov f l hf hl hW hov hT
    rw [getWindows_ok data W ov f l hf hl hW hov]
    refine ⟨_, rfl, ?_, ?_⟩
    · simp only [List.length_map, List.length_range]
      exact Int.toNat_of_nonneg (Int.ceil_nonneg (div_nonneg
        (by exact_mod_cast sub_nonneg.mpr hT) (le_of_lt (sub_pos.mpr hov))))
    · intro i hi o
      simp only [List.length_map, List.length_range] at hi
      rw [List.getElem_map, List.getElem_range]
      simp [List.mem_filter, decide_eq_true_eq]
  · rw [getWindows_ok [⟨0, 1⟩, ⟨1000, 2⟩, ⟨2000, 3⟩, ⟨3000, 4⟩, ⟨4000, 5⟩,
      ⟨8000, 6⟩] 3000 1500 ⟨0, 1⟩ ⟨8000, 6⟩ rfl rfl (by norm_num)
      (by norm_num)]
    rw [ceil_toNat_eq (z := 6) (n := 6) (by norm_num) (by norm_num) rfl]
    rw [show List.range 6 = [0, 1, 2, 3, 4, 5] from rfl]
    norm_num [List.filter_cons, List.filter_nil]

/-- C2 (witness): the theorem's first part applied to the six concrete
observations at 0,1,2,3,4,8 seconds with window size 3000 and overlap
1500. -/
theorem getWindows_partition_spec_witness :
    ∃ ws, getWindows [⟨0, 1⟩, ⟨1000, 2⟩, ⟨2000, 3⟩, ⟨3000, 4⟩, ⟨4000, 5⟩,
        ⟨8000, 6⟩] 3000 1500 = Except.ok ws ∧
      (ws.length : ℤ) = ⌈(((8000 : ℤ) - 0 : ℤ) : ℚ) / (3000 - 1500)⌉ ∧
      ∀ i, ∀ hi : i < ws.length, ∀ o : Obs,
        o ∈ ws[i] ↔ o ∈ [⟨0, 1⟩, ⟨1000, 2⟩, ⟨2000, 3⟩, ⟨3000, 4⟩,
            ⟨4000, 5⟩, ⟨8000, 6⟩] ∧
          (i : ℚ) * (3000 - 1500) ≤ ((o.date - 0 : ℤ) : ℚ) ∧
          ((o.date - 0 : ℤ) : ℚ) < (i : ℚ) * (3000 - 1500) + 3000 :=
  getWindows_partition_spec.1 [⟨0, 1⟩, ⟨1000, 2⟩, ⟨2000, 3⟩, ⟨3000, 4⟩,
    ⟨4000, 5⟩, ⟨8000, 6⟩] 3000 1500 ⟨0, 1⟩ ⟨8000, 6⟩ rfl rfl (by norm_num)
    (by norm_num) (by norm_num)

/-- C3 (amended): for validated arguments and a chronologically ordered
nonempty input, `getWindows` returns `ceil(T / stride)` windows: at least 1
whenever the span `T` is positive, but 0 windows (an empty list) when `T`
is 0, e.g. for a single observation or when all observations share one
timestamp. -/
theorem getWindows_count_spec :
    ∀ (data : List Obs) (W ov : ℚ) (f l : Obs),
      data.head? = some f → data.getLast? = some l → 0 < W → ov < W →
      ∃ ws, getWindows data W ov = Except.ok ws ∧
        (f.date < l.date → 1 ≤ ws.length) ∧
        (f.date = l.date → ws = []) := by
  intro data W ov f l hf hl hW hov
  rw [getWindows_ok data W ov f l hf hl hW hov]
  refine ⟨_, rfl, ?_, ?_⟩
  · intro hlt
    simp only [List.length_map, List.length_range]
    have hTpos : (0 : ℚ) < ((l.date - f.date : ℤ) : ℚ) := by
      exact_mod_cast sub_pos.mpr hlt
    have hc : 0 < ⌈((l.date - f.date : ℤ) : ℚ) / (W - ov)⌉ :=
      Int.ceil_pos.mpr (div_pos hTpos (sub_pos.mpr hov))
    omega
  · intro heq
    simp [heq]

/-- C3 (amended, witness): the theorem applied to two observations spanning
500 ms with window size 1000 and overlap 0. -/
theorem getWindows_count_spec_witness :
    ∃ ws, getWindows [(⟨0, 1⟩ : Obs), ⟨500, 2⟩] 1000 0 = Except.ok ws ∧
      ((0 : ℤ) < 500 → 1 ≤ ws.length) ∧ ((0 : ℤ) = 500 → ws = []) :=
  getWindows_count_spec [⟨0, 1⟩, ⟨500, 2⟩] 1000 0 ⟨0, 1⟩ ⟨500, 2⟩ rfl rfl
    (by norm_num) (by norm_num)

/-- C5 (amended): for validated arguments (overlap taken nonnegative, per
the spec's contract) and a positive span, the last window's interval end is
at least the last observation's offset, and strictly exceeds it whenever the
overlap is positive; equality is possible at overlap 0 (see the
counterexample), in which case the last observation falls in no window. -/
theorem getWindows_last_window_end :
    ∀ (data : List Obs) (W ov : ℚ) (f l : Obs),
      data.head? = some f → data.getLast? = some l → 0 < W → 0 ≤ ov →
      ov < W → f.date < l.date →
      ∃ ws, getWindows data W ov = Except.ok ws ∧ 0 < ws.length ∧
        ((l.date - f.date : ℤ) : ℚ) ≤ windowEnd W ov (ws.length - 1) ∧
        (0 < ov →
          ((l.date - f.date : ℤ) : ℚ) < windowEnd W ov (ws.length - 1)) := by
  intro data W ov f l hf hl hW hov0 hov hlt
  rw [getWindows_ok data W ov f l hf hl hW hov]
  have hs : (0 : ℚ) < W - ov := sub_pos.mpr hov
  have hTpos : (0 : ℚ) < ((l.date - f.date : ℤ) : ℚ) := by
    exact_mod_cast sub_pos.mpr hlt
  have hc : 0 < ⌈((l.date - f.date : ℤ) : ℚ) / (W - ov)⌉ :=
    Int.ceil_pos.mpr (div_pos hTpos hs)
  have hcast : (((⌈((l.date - f.date : ℤ) : ℚ) / (W - ov)⌉).toNat - 1 : ℕ)
      : ℚ) = ((⌈((l.date - f.date : ℤ) : ℚ) / (W - ov)⌉ : ℤ) : ℚ) - 1 := by
    rw [Nat.cast_sub (by omega), Nat.cast_one]
    congr 1
    exact_mod_cast congrArg (fun z : ℤ => (z : ℚ))
      (Int.toNat_of_nonneg (le_of_lt hc))
  have hle : ((l.date - f.date : ℤ) : ℚ) ≤
      ((⌈((l.date - f.date : ℤ) : ℚ) / (W - ov)⌉ : ℤ) : ℚ) * (W - ov) :=
    (div_le_iff₀ hs).mp (Int.le_ceil _)
  refine ⟨_, rfl, ?_, ?_, ?_⟩
  · simp only [List.length_map, List.length_range]
    omega
  · simp only [List.length_map, List.length_range, windowEnd]
    rw [hcast]
    nlinarith [hle]
  · intro hovpos
    simp only [List.length_map, List.length_range, windowEnd]
    rw [hcast]
    nlinarith [hle]

/-- C5 (amended, witness): the theorem applied to observations at offsets 0
and 4000 ms with window size 3000 and overlap 1500. -/
theorem getWindows_last_window_end_witness :
    ∃ ws, getWindows [(⟨0, 1⟩ : Obs), ⟨4000, 2⟩] 3000 1500 =
        Except.ok ws ∧ 0 < ws.length ∧
      (((4000 : ℤ) - 0 : ℤ) : ℚ) ≤ windowEnd 3000 1500 (ws.length - 1) ∧
      (0 < (1500 : ℚ) →
        (((4000 : ℤ) - 0 : ℤ) : ℚ) < windowEnd 3000 1500 (ws.length - 1)) :=
  getWindows_last_window_end [⟨0, 1⟩, ⟨4000, 2⟩] 3000 1500 ⟨0, 1⟩ ⟨4000, 2⟩
    rfl rfl (by norm_num) (by norm_num) (by norm_num) (by norm_num)

/-- C10: every window `getWindows` returns is a sublist (an ordered
subsequence) of the input, so each window element is one of the input's own
observation records; the embedding is a pure function, so nothing is
mutated. -/
theorem getWindows_windows_are_sublists :
    ∀ (data : List Obs) (W ov : ℚ) (ws : List (List Obs)),
      getWindows data W ov = Except.ok ws →
      ∀ w ∈ ws, w.Sublist data := by
  intro data W ov ws h w hw
  simp only [getWindows] at h
  by_cases h1 : W ≤ 0
  · rw [if_pos h1] at h
    simp at h
  rw [if_neg h1] at h
  by_cases h2 : W ≤ ov
  · rw [if_pos h2] at h
    simp at h
  rw [if_neg h2] at h
  cases hf : data.head? <;> cases hl : data.getLast? <;> rw [hf, hl] at h
  · simp at h
  · simp at h
  · simp at h
  · simp only [Except.ok.injEq] at h
    subst h
    obtain ⟨i, hi, rfl⟩ := List.mem_map.mp hw
    exact List.filter_sublist data

/-- C10 (witness): the theorem applied to the two-observation input whose
single window is the first observation alone. -/
theorem getWindows_windows_are_sublists_witness :
    List.Sublist [(⟨0, 1⟩ : Obs)] [(⟨0, 1⟩ : Obs), ⟨3000, 1⟩] :=
  getWindows_windows_are_sublists [⟨0, 1⟩, ⟨3000, 1⟩] 3000 0 [[⟨0, 1⟩]]
    (by
      rw [getWindows_ok [(⟨0, 1⟩ : Obs), ⟨3000, 1⟩] 3000 0 ⟨0, 1⟩ ⟨3000, 1⟩
        rfl rfl (by norm_num) (by norm_num)]
      rw [ceil_toNat_eq (z := 1) (n := 1) (by norm_num) (by norm_num) rfl]
      norm_num [List.range_succ, List.filter_cons, List.filter_nil])
    [⟨0, 1⟩] (by simp)

/-- C4: the rate the estimator computes for a window is
`(intercept + slope) / intercept` of the OLS regression of the window's
values against elapsed years since its first observation, minus 1 after the
`NaN` filter; a window with fewer than 2 observations gets the `NaN` rate
(the OLS denominator vanishes) and is excluded from the retained rates,
which are exactly the non-`NaN` windows' rates minus 1, in window order. -/
theorem windowGrowthRate_spec :
    (∀ w : List Obs, w.length < 2 → windowGrowthRate w = JSNum.nan) ∧
    (∀ windows : List (List Obs),
      retainedRates windows =
        (windows.filter
          (fun w => !(JSNum.isNaN (windowGrowthRate w)))).map
          (fun w => JSNum.sub (windowGrowthRate w) (JSNum.num 1))) ∧
    (∀ (w : List Obs) (f : Obs), w.head? = some f →
      windowGrowthRate w =
        JSNum.div
          (JSNum.add
            (ols (w.map (fun o => ((o.date - f.date : ℤ) : ℚ) / yearInMs))
              (w.map Obs.value)).2
            (ols (w.map (fun o => ((o.date - f.date : ℤ) : ℚ) / yearInMs))
              (w.map Obs.value)).1)
          (ols (w.map (fun o => ((o.date - f.date : ℤ) : ℚ) / yearInMs))
            (w.map Obs.value)).2) := by
  refine ⟨windowGrowthRate_short, ?_, ?_⟩
  · intro windows
    simp only [retainedRates, growthRatesOf, List.filter_map, List.map_map]
    rfl
  · intro w f hf
    simp only [windowGrowthRate, hf]

/-- C4 (witness): the theorem's first part applied to a one-observation
window. -/
theorem windowGrowthRate_spec_witness :
    windowGrowthRate [⟨7, 3⟩] = JSNum.nan :=
  windowGrowthRate_spec.1 [⟨7, 3⟩] (by norm_num)
